import Mathlib

/-
Verification of the Madison Metro GTFS-Realtime proxy (src/index.js).

The source is a small Express application.  Each realtime feed handler
performs up to three sequential outbound fetches against hard-coded
candidate URLs, falling back to the next URL only when the previous one
responded with a non-2xx status (`!response.ok`).  A fetch that throws
(transport error) or a protobuf decode that throws is caught by the
handler's try/catch, which responds with HTTP 404.  A discovery endpoint
probes all nine candidate URLs and reports per-URL status plus a
recommended URL per feed type.

The embedding below is a shallow one: outbound `fetch` is an oracle
`String → FetchResult`, the external protobuf decoder is an oracle
`List Nat → Except String α`, and every handler is a pure function
returning its HTTP response together with the ordered trace of outbound
fetch calls (URL plus the options passed at the call site).
-/

namespace MadisonProxy

/-- Result of one outbound fetch: either an HTTP response (status code,
status text, body bytes), or a thrown transport error (timeout,
connection failure, DNS failure) carrying the error message. -/
inductive FetchResult where
  | response (status : Nat) (statusText : String) (body : List Nat)
  | thrown (message : String)
  deriving DecidableEq

/-- One outbound fetch call as issued at a call site in src/index.js:
the URL together with the options object passed to `fetch`
(the fixed User-Agent header and the `timeout` field). -/
structure FetchCall where
  url : String
  userAgent : String
  timeout : Nat
  deriving DecidableEq

/-- The fixed identifying header value sent on every outbound fetch. -/
def userAgentValue : String := "Madison-Metro-Proxy/1.0"

/-- Builds the `FetchCall` record for a call site with the given timeout. -/
def mkCall (timeoutMs : Nat) (u : String) : FetchCall :=
  { url := u, userAgent := userAgentValue, timeout := timeoutMs }

/-- node-fetch `response.ok`: status in the 2xx range. -/
def respOk (s : Nat) : Bool := decide (200 ≤ s) && decide (s < 300)

/-- Body of an HTTP response produced by a handler: either the decoded
feed message (`res.json(feed)`), or the error JSON object built in a
catch block (fields error, status, message, details, and the optional
suggestion present only in the trip-updates handler). -/
inductive Body (α : Type) where
  | feed (f : α)
  | errorPayload (error : String) (status : Nat) (message : String)
      (details : String) (suggestion : Option String)

/-- An HTTP response sent to the client: status code plus JSON body. -/
structure HttpResponse (α : Type) where
  status : Nat
  body : Body α

/-- The `details` field of an error payload (the caught error's message);
empty for a feed body. -/
def bodyDetails {α : Type} : Body α → String
  | Body.feed _ => ""
  | Body.errorPayload _ _ _ d _ => d

/-- Core of each realtime feed handler's try block (src/index.js lines
57-105 and its two clones): fetch the first URL; on a non-2xx response
fetch the second; on a non-2xx response fetch the third; on a non-2xx
response throw an error listing the three status codes; otherwise decode
the winning body.  A thrown transport error or a decode error propagates
as `Except.error`.  The second component is the trace of outbound
fetches, each with timeout 10000 and the fixed User-Agent. -/
def resolveFeed {α : Type} (decode : List Nat → Except String α)
    (fetchFn : String → FetchResult) (u1 u2 u3 exhaustMsg : String) :
    Except String α × List FetchCall :=
  match fetchFn u1 with
  | FetchResult.thrown m => (Except.error m, [mkCall 10000 u1])
  | FetchResult.response s1 _ b1 =>
    if respOk s1 then (decode b1, [mkCall 10000 u1])
    else
      match fetchFn u2 with
      | FetchResult.thrown m => (Except.error m, [mkCall 10000 u1, mkCall 10000 u2])
      | FetchResult.response s2 _ b2 =>
        if respOk s2 then (decode b2, [mkCall 10000 u1, mkCall 10000 u2])
        else
          match fetchFn u3 with
          | FetchResult.thrown m =>
              (Except.error m, [mkCall 10000 u1, mkCall 10000 u2, mkCall 10000 u3])
          | FetchResult.response s3 _ b3 =>
            if respOk s3 then
              (decode b3, [mkCall 10000 u1, mkCall 10000 u2, mkCall 10000 u3])
            else
              (Except.error (exhaustMsg ++ toString s1 ++ ", " ++ toString s2
                  ++ ", " ++ toString s3),
               [mkCall 10000 u1, mkCall 10000 u2, mkCall 10000 u3])

/-- A realtime feed endpoint handler: run the try block and map its
outcome to an HTTP response.  `Except.ok` becomes 200 with the decoded
feed (`res.json(feed)`); any caught error becomes 404 with the error
JSON built in the catch block (`errorText` and `suggestion` vary by
handler). -/
def feedEndpoint {α : Type} (decode : List Nat → Except String α)
    (fetchFn : String → FetchResult)
    (u1 u2 u3 exhaustMsg errorText : String) (suggestion : Option String) :
    HttpResponse α × List FetchCall :=
  match resolveFeed decode fetchFn u1 u2 u3 exhaustMsg with
  | (Except.ok f, log) => ({ status := 200, body := Body.feed f }, log)
  | (Except.error m, log) =>
      ({ status := 404,
         body := Body.errorPayload errorText 404 "Not Found" m suggestion }, log)

/-- First candidate URL of the trip-updates handler. -/
def tripUrl1 : String := "https://transitdata.cityofmadison.com/TripUpdates.pb"

/-- Second candidate URL of the trip-updates handler. -/
def tripUrl2 : String := "https://transitdata.cityofmadison.com/gtfs-rt/TripUpdates.pb"

/-- Third candidate URL of the trip-updates handler. -/
def tripUrl3 : String := "https://transitdata.cityofmadison.com/gtfsrt/TripUpdate/TripUpdate.pb"

/-- First candidate URL of the vehicle-positions handler. -/
def vehicleUrl1 : String := "https://transitdata.cityofmadison.com/VehiclePositions.pb"

/-- Second candidate URL of the vehicle-positions handler. -/
def vehicleUrl2 : String := "https://transitdata.cityofmadison.com/gtfs-rt/VehiclePositions.pb"

/-- Third candidate URL of the vehicle-positions handler. -/
def vehicleUrl3 : String := "https://transitdata.cityofmadison.com/gtfsrt/VehiclePosition/VehiclePosition.pb"

/-- First candidate URL of the service-alerts handler. -/
def alertUrl1 : String := "https://transitdata.cityofmadison.com/Alerts.pb"

/-- Second candidate URL of the service-alerts handler. -/
def alertUrl2 : String := "https://transitdata.cityofmadison.com/gtfs-rt/Alerts.pb"

/-- Third candidate URL of the service-alerts handler. -/
def alertUrl3 : String := "https://transitdata.cityofmadison.com/gtfsrt/Alert/Alert.pb"

/-- Candidate list of the trip-updates handler, in fallback order. -/
def tripUrls : List String := [tripUrl1, tripUrl2, tripUrl3]

/-- Candidate list of the vehicle-positions handler, in fallback order. -/
def vehicleUrls : List String := [vehicleUrl1, vehicleUrl2, vehicleUrl3]

/-- Candidate list of the service-alerts handler, in fallback order. -/
def alertUrls : List String := [alertUrl1, alertUrl2, alertUrl3]

/-- GET /realtime/trip-updates (src/index.js lines 57-116). -/
def tripUpdatesHandler {α : Type} (decode : List Nat → Except String α)
    (fetchFn : String → FetchResult) : HttpResponse α × List FetchCall :=
  feedEndpoint decode fetchFn tripUrl1 tripUrl2 tripUrl3
    "All Madison Metro trip updates URLs failed. Status codes: "
    "Failed to retrieve data from Madison Metro API"
    (Option.some "Madison Metro may have changed their GTFS-Realtime feed URLs or implemented access controls")

/-- GET /realtime/vehicle-positions (src/index.js lines 119-176). -/
def vehiclePositionsHandler {α : Type} (decode : List Nat → Except String α)
    (fetchFn : String → FetchResult) : HttpResponse α × List FetchCall :=
  feedEndpoint decode fetchFn vehicleUrl1 vehicleUrl2 vehicleUrl3
    "All Madison Metro vehicle positions URLs failed. Status codes: "
    "Failed to retrieve vehicle positions data"
    Option.none

/-- GET /realtime/service-alerts (src/index.js lines 179-236). -/
def serviceAlertsHandler {α : Type} (decode : List Nat → Except String α)
    (fetchFn : String → FetchResult) : HttpResponse α × List FetchCall :=
  feedEndpoint decode fetchFn alertUrl1 alertUrl2 alertUrl3
    "All Madison Metro service alerts URLs failed. Status codes: "
    "Failed to retrieve service alerts data"
    Option.none

/-- Character-list version of the JS `String.prototype.startsWith` test
used to implement substring search. -/
def leadsWith : List Char → List Char → Bool
  | [], _ => true
  | _ :: _, [] => false
  | p :: ps, c :: cs => p == c && leadsWith ps cs

/-- Character-list substring search: does the pattern occur anywhere? -/
def hasSub (pat : List Char) : List Char → Bool
  | [] => pat.isEmpty
  | c :: rest => leadsWith pat (c :: rest) || hasSub pat rest

/-- JS `s.includes(pat)` on strings. -/
def strIncludes (s pat : String) : Bool := hasSub pat.toList s.toList

/-- JS `s.toLowerCase()` (the URLs involved are ASCII-only). -/
def toLowerStr (s : String) : String := String.mk (s.toList.map Char.toLower)

/-- The nine candidate URL patterns probed by GET /discover-urls
(src/index.js lines 240-255), in source order. -/
def urlPatterns : List String :=
  [tripUrl1, vehicleUrl1, alertUrl1,
   tripUrl2, vehicleUrl2, alertUrl2,
   tripUrl3, vehicleUrl3, alertUrl3]

/-- The `status` field of one entry of the discovery report: a numeric
HTTP status code, or the literal string "error" when the probe threw. -/
inductive CheckStatus where
  | code (n : Nat)
  | errorTag
  deriving DecidableEq

/-- One entry of the discovery report's `urlChecks` object. -/
structure UrlCheck where
  status : CheckStatus
  statusText : String
  working : Bool
  deriving DecidableEq

/-- One iteration of the discovery loop: fetch the URL; on a response
record its status, statusText and `working := response.ok`; on a thrown
error record status "error", the error message, and `working := false`. -/
def probe (fetchFn : String → FetchResult) (u : String) : UrlCheck :=
  match fetchFn u with
  | FetchResult.response s st _ =>
      { status := CheckStatus.code s, statusText := st, working := respOk s }
  | FetchResult.thrown m =>
      { status := CheckStatus.errorTag, statusText := m, working := false }

/-- The `results` object after the discovery loop, as an association
list in insertion order (the nine URLs are pairwise distinct, so JS
object insertion order is exactly this list). -/
def discResults (fetchFn : String → FetchResult) : List (String × UrlCheck) :=
  urlPatterns.map (fun u => (u, probe fetchFn u))

/-- `Object.keys(results).filter(url => results[url].working &&
url.toLowerCase().includes(pat))` over the association list. -/
def filterWorking (results : List (String × UrlCheck)) (pat : String) :
    List String :=
  (results.filter (fun p => p.2.working && strIncludes (toLowerStr p.1) pat)).map
    Prod.fst

/-- JS `xs[0] || 'None found'`: `xs[0]` is `undefined` on an empty
array, and the empty string is also falsy. -/
def jsOrNoneFound : Option String → String
  | Option.none => "None found"
  | Option.some s => if s = "" then "None found" else s

/-- The JSON object returned by GET /discover-urls. -/
structure DiscoveryReport where
  urlChecks : List (String × UrlCheck)
  workingTripUpdates : List String
  workingVehiclePositions : List String
  workingAlerts : List String
  recommendedTripUpdates : String
  recommendedVehiclePositions : String
  recommendedAlerts : String

/-- GET /discover-urls (src/index.js lines 239-301): probe all nine
URLs in order, then compute the working lists and recommended
endpoints.  Second component: the trace of outbound fetches, each with
timeout 5000 and the fixed User-Agent. -/
def discoverUrls (fetchFn : String → FetchResult) :
    DiscoveryReport × List FetchCall :=
  let results := discResults fetchFn
  let wt := filterWorking results "tripupdate"
  let wv := filterWorking results "vehicleposition"
  let wa := filterWorking results "alert"
  ({ urlChecks := results,
     workingTripUpdates := wt,
     workingVehiclePositions := wv,
     workingAlerts := wa,
     recommendedTripUpdates := jsOrNoneFound wt.head?,
     recommendedVehiclePositions := jsOrNoneFound wv.head?,
     recommendedAlerts := jsOrNoneFound wa.head? },
   urlPatterns.map (mkCall 5000))

/-- Whether a fetch result is a 2xx response (the condition under which
the discovery handler marks a URL as working). -/
def fetchWorking : FetchResult → Bool
  | FetchResult.response s _ _ => respOk s
  | FetchResult.thrown _ => false

/-- Spec-side description of the recommended endpoint (spec section 4.4),
written from the spec's words for comparison with the code: the first
URL in the feed type's candidate list whose probe is working, or the
literal "None found" if none is. -/
def specFirstWorking (fetchFn : String → FetchResult)
    (candidates : List String) : String :=
  (candidates.filter (fun u => (probe fetchFn u).working)).headD "None found"

/-- Modelled from the spec: the top-level catch for uncaught internal
faults lives in the HTTP framework (an external collaborator, not part
of src/); per spec section 4.3 it produces HTTP 500 with a generic
message, and passes a normal handler response through unchanged. -/
def topLevelCatch {α : Type} : Except String (HttpResponse α) → HttpResponse α
  | Except.ok r => r
  | Except.error _ =>
      { status := 500,
        body := Body.errorPayload "Internal Server Error" 500
          "Internal Server Error" "" Option.none }

/-- The fetch trace of a feed endpoint handler is always one of three
shapes: the first call alone, the first two calls, or all three calls,
in candidate order with timeout 10000. -/
theorem feedEndpoint_trace_cases {α : Type} (decode : List Nat → Except String α)
    (fetchFn : String → FetchResult) (u1 u2 u3 em et : String)
    (sg : Option String) :
    (feedEndpoint decode fetchFn u1 u2 u3 em et sg).2 = [mkCall 10000 u1] ∨
    (feedEndpoint decode fetchFn u1 u2 u3 em et sg).2 =
      [mkCall 10000 u1, mkCall 10000 u2] ∨
    (feedEndpoint decode fetchFn u1 u2 u3 em et sg).2 =
      [mkCall 10000 u1, mkCall 10000 u2, mkCall 10000 u3] := by
  unfold feedEndpoint resolveFeed
  rcases h1 : fetchFn u1 with ⟨s1, t1, b1⟩ | m1
  · rcases k1 : respOk s1
    · rcases h2 : fetchFn u2 with ⟨s2, t2, b2⟩ | m2
      · rcases k2 : respOk s2
        · rcases h3 : fetchFn u3 with ⟨s3, t3, b3⟩ | m3
          · rcases k3 : respOk s3
            · simp [h1, k1, h2, k2, h3, k3]
            · rcases hd : decode b3 with m | f <;> simp [h1, k1, h2, k2, h3, k3, hd]
          · simp [h1, k1, h2, k2, h3]
        · rcases hd : decode b2 with m | f <;> simp [h1, k1, h2, k2, hd]
      · simp [h1, k1, h2]
    · rcases hd : decode b1 with m | f <;> simp [h1, k1, hd]
  · simp [h1]

/-- Status of a feed endpoint handler response: 200 exactly when the
resolution produced a decoded feed, 404 otherwise. -/
theorem feedEndpoint_status {α : Type} (decode : List Nat → Except String α)
    (fetchFn : String → FetchResult) (u1 u2 u3 em et : String)
    (sg : Option String) :
    (feedEndpoint decode fetchFn u1 u2 u3 em et sg).1.status = 200 ∨
    (feedEndpoint decode fetchFn u1 u2 u3 em et sg).1.status = 404 := by
  unfold feedEndpoint
  rcases h : resolveFeed decode fetchFn u1 u2 u3 em with ⟨m | f, log⟩ <;> simp [h]

/-- A feed endpoint handler fetches each candidate at most once and at
most three times in total, provided its three candidates are distinct. -/
theorem feedEndpoint_fetch_bound {α : Type} (decode : List Nat → Except String α)
    (fetchFn : String → FetchResult) (u1 u2 u3 em et : String)
    (sg : Option String) (hu : ([u1, u2, u3] : List String).Nodup) :
    ((feedEndpoint decode fetchFn u1 u2 u3 em et sg).2.map FetchCall.url).Nodup ∧
    (feedEndpoint decode fetchFn u1 u2 u3 em et sg).2.length ≤ 3 := by
  simp [List.nodup_cons] at hu
  rcases feedEndpoint_trace_cases decode fetchFn u1 u2 u3 em et sg with h | h | h <;>
    rw [h] <;> simp [mkCall, List.nodup_cons] <;> tauto

/-- Every call in a feed endpoint handler's trace satisfies any
predicate that holds of a 10000 ms call to an arbitrary URL. -/
theorem feedEndpoint_calls_prop {α : Type} (decode : List Nat → Except String α)
    (fetchFn : String → FetchResult) (u1 u2 u3 em et : String)
    (sg : Option String) (p : FetchCall → Bool)
    (hp : ∀ u, p (mkCall 10000 u) = true) :
    (feedEndpoint decode fetchFn u1 u2 u3 em et sg).2.all p = true := by
  rcases feedEndpoint_trace_cases decode fetchFn u1 u2 u3 em et sg with h | h | h <;>
    rw [h] <;> simp [List.all_cons, hp]

/-- C3: every feed endpoint handler produces only HTTP status 200 (on a
decoded feed) or 404 (on any caught failure); the top-level catch for
uncaught internal faults (modelled from the spec: it lives in the HTTP
framework, outside src/) produces HTTP 500 with a generic message and
passes a normal handler response through unchanged, so no other status
codes arise. -/
theorem feed_handlers_status_200_or_404_and_fatal_500 {α : Type}
    (decode : List Nat → Except String α) (fetchFn : String → FetchResult) :
    ((tripUpdatesHandler decode fetchFn).1.status = 200 ∨
      (tripUpdatesHandler decode fetchFn).1.status = 404) ∧
    ((vehiclePositionsHandler decode fetchFn).1.status = 200 ∨
      (vehiclePositionsHandler decode fetchFn).1.status = 404) ∧
    ((serviceAlertsHandler decode fetchFn).1.status = 200 ∨
      (serviceAlertsHandler decode fetchFn).1.status = 404) ∧
    (∀ m : String,
      (topLevelCatch (Except.error m : Except String (HttpResponse α))).status = 500) ∧
    (∀ r : HttpResponse α, topLevelCatch (Except.ok r) = r) := by
  unfold tripUpdatesHandler vehiclePositionsHandler serviceAlertsHandler
  exact ⟨feedEndpoint_status _ _ _ _ _ _ _ _,
         feedEndpoint_status _ _ _ _ _ _ _ _,
         feedEndpoint_status _ _ _ _ _ _ _ _,
         fun _ => rfl, fun _ => rfl⟩

/-- C8: within a single resolution pass, each of the three feed endpoint
handlers fetches every candidate URL at most once, and performs at most
three upstream fetches in total (the static list length). -/
theorem at_most_one_fetch_per_candidate {α : Type}
    (decode : List Nat → Except String α) (fetchFn : String → FetchResult) :
    (((tripUpdatesHandler decode fetchFn).2.map FetchCall.url).Nodup ∧
      (tripUpdatesHandler decode fetchFn).2.length ≤ 3) ∧
    (((vehiclePositionsHandler decode fetchFn).2.map FetchCall.url).Nodup ∧
      (vehiclePositionsHandler decode fetchFn).2.length ≤ 3) ∧
    (((serviceAlertsHandler decode fetchFn).2.map FetchCall.url).Nodup ∧
      (serviceAlertsHandler decode fetchFn).2.length ≤ 3) := by
  unfold tripUpdatesHandler vehiclePositionsHandler serviceAlertsHandler
  exact ⟨feedEndpoint_fetch_bound _ _ _ _ _ _ _ _ (by decide),
         feedEndpoint_fetch_bound _ _ _ _ _ _ _ _ (by decide),
         feedEndpoint_fetch_bound _ _ _ _ _ _ _ _ (by decide)⟩

/-- C9: every outbound fetch of the feed handlers carries timeout
10000 ms and every discovery probe carries timeout 5000 ms (all bounded),
and a candidate whose fetch fails at transport level (timeout,
connection or DNS failure, modelled as a thrown fetch) is classified as
an error: the handler answers 404 carrying that error message instead
of hanging or succeeding. -/
theorem every_fetch_has_bounded_timeout {α : Type}
    (decode : List Nat → Except String α) (fetchFn : String → FetchResult)
    (m : String) (ht : fetchFn tripUrl1 = FetchResult.thrown m) :
    ((tripUpdatesHandler decode fetchFn).2.all
      (fun c => decide (0 < c.timeout) && c.timeout == 10000) = true) ∧
    ((vehiclePositionsHandler decode fetchFn).2.all
      (fun c => decide (0 < c.timeout) && c.timeout == 10000) = true) ∧
    ((serviceAlertsHandler decode fetchFn).2.all
      (fun c => decide (0 < c.timeout) && c.timeout == 10000) = true) ∧
    ((discoverUrls fetchFn).2.all
      (fun c => decide (0 < c.timeout) && c.timeout == 5000) = true) ∧
    (tripUpdatesHandler decode fetchFn).1.status = 404 ∧
    bodyDetails (tripUpdatesHandler decode fetchFn).1.body = m := by
  refine ⟨?_, ?_, ?_, ?_, ?_, ?_⟩
  · unfold tripUpdatesHandler
    exact feedEndpoint_calls_prop _ _ _ _ _ _ _ _ _ (fun u => by simp [mkCall])
  · unfold vehiclePositionsHandler
    exact feedEndpoint_calls_prop _ _ _ _ _ _ _ _ _ (fun u => by simp [mkCall])
  · unfold serviceAlertsHandler
    exact feedEndpoint_calls_prop _ _ _ _ _ _ _ _ _ (fun u => by simp [mkCall])
  · rfl
  · unfold tripUpdatesHandler feedEndpoint resolveFeed
    rw [ht]
  · unfold tripUpdatesHandler feedEndpoint resolveFeed
    rw [ht]
    rfl

/-- C10: each feed handler has exactly three pairwise-distinct candidate
URLs; the discovery probe list is exactly the union of the three lists
(nine URLs), with each feed type's three URLs in the same relative order
as in that feed's handler; and every outbound fetch of every handler
sends the fixed header User-Agent: Madison-Metro-Proxy/1.0. -/
theorem static_url_configuration {α : Type}
    (decode : List Nat → Except String α) (fetchFn : String → FetchResult) :
    (tripUrls.length = 3 ∧ tripUrls.Nodup) ∧
    (vehicleUrls.length = 3 ∧ vehicleUrls.Nodup) ∧
    (alertUrls.length = 3 ∧ alertUrls.Nodup) ∧
    (urlPatterns.length = 9 ∧
      urlPatterns.Perm (tripUrls ++ vehicleUrls ++ alertUrls) ∧
      tripUrls.Sublist urlPatterns ∧ vehicleUrls.Sublist urlPatterns ∧
      alertUrls.Sublist urlPatterns) ∧
    ((tripUpdatesHandler decode fetchFn).2.all
      (fun c => c.userAgent == userAgentValue) = true) ∧
    ((vehiclePositionsHandler decode fetchFn).2.all
      (fun c => c.userAgent == userAgentValue) = true) ∧
    ((serviceAlertsHandler decode fetchFn).2.all
      (fun c => c.userAgent == userAgentValue) = true) ∧
    ((discoverUrls fetchFn).2.all
      (fun c => c.userAgent == userAgentValue) = true) := by
  refine ⟨by decide, by decide, by decide, by decide, ?_, ?_, ?_, rfl⟩
  · unfold tripUpdatesHandler
    exact feedEndpoint_calls_prop _ _ _ _ _ _ _ _ _ (fun u => by simp [mkCall])
  · unfold vehiclePositionsHandler
    exact feedEndpoint_calls_prop _ _ _ _ _ _ _ _ _ (fun u => by simp [mkCall])
  · unfold serviceAlertsHandler
    exact feedEndpoint_calls_prop _ _ _ _ _ _ _ _ _ (fun u => by simp [mkCall])

/-- Decoder oracle that accepts any byte list, yielding a fixed feed. -/
def cexDecode : List Nat → Except String Nat := fun _ => Except.ok 7

/-- Fetch oracle where every URL fails at transport level (timeout). -/
def timeoutFetch : String → FetchResult :=
  fun _ => FetchResult.thrown "network timeout at 10000 ms"

/-- Witness for every_fetch_has_bounded_timeout at the all-timeout
oracle. -/
theorem every_fetch_has_bounded_timeout_witness :
    ((tripUpdatesHandler cexDecode timeoutFetch).2.all
      (fun c => decide (0 < c.timeout) && c.timeout == 10000) = true) ∧
    ((vehiclePositionsHandler cexDecode timeoutFetch).2.all
      (fun c => decide (0 < c.timeout) && c.timeout == 10000) = true) ∧
    ((serviceAlertsHandler cexDecode timeoutFetch).2.all
      (fun c => decide (0 < c.timeout) && c.timeout == 10000) = true) ∧
    ((discoverUrls timeoutFetch).2.all
      (fun c => decide (0 < c.timeout) && c.timeout == 5000) = true) ∧
    (tripUpdatesHandler cexDecode timeoutFetch).1.status = 404 ∧
    bodyDetails (tripUpdatesHandler cexDecode timeoutFetch).1.body =
      "network timeout at 10000 ms" :=
  every_fetch_has_bounded_timeout cexDecode timeoutFetch
    "network timeout at 10000 ms" rfl

/-- Fetch oracle for the C1 counterexample: the first trip-updates
candidate fails at transport level, every other URL succeeds with
decodable bytes. -/
def cexFetchC1 : String → FetchResult := fun u =>
  if u = tripUrl1 then FetchResult.thrown "connect ETIMEDOUT"
  else FetchResult.response 200 "OK" [10]

/-- C1 counterexample: the first trip-updates candidate fails at
transport level while the second candidate would return decodable
bytes; the handler answers 404 — not 200 — and never contacts the
second candidate, refuting the claim that after a transport failure the
resolver records the outcome and continues so that a later successful
candidate yields 200. -/
theorem transportError_then_success_yields_404 :
    cexFetchC1 tripUrl1 = FetchResult.thrown "connect ETIMEDOUT" ∧
    cexFetchC1 tripUrl2 = FetchResult.response 200 "OK" [10] ∧
    cexDecode [10] = Except.ok 7 ∧
    (tripUpdatesHandler cexDecode cexFetchC1).1.status = 404 ∧
    ((tripUpdatesHandler cexDecode cexFetchC1).2.map FetchCall.url) = [tripUrl1] :=
  ⟨rfl, rfl, rfl, rfl, rfl⟩

/-- C1 (amended): on an HTTP-level failure (non-2xx response) the
handler continues to the next candidate, and a later candidate whose
fetch succeeds and whose bytes decode yields HTTP 200 with the decoded
feed, the transport-level case being excluded (a thrown fetch aborts
resolution with 404). -/
theorem httpError_falls_through_to_next_candidate {α : Type}
    (decode : List Nat → Except String α) (fetchFn : String → FetchResult)
    (u1 u2 u3 em et : String) (sg : Option String)
    (s1 : Nat) (t1 : String) (b1 : List Nat)
    (s2 : Nat) (t2 : String) (b2 : List Nat) (f : α)
    (h1 : fetchFn u1 = FetchResult.response s1 t1 b1) (k1 : respOk s1 = false)
    (h2 : fetchFn u2 = FetchResult.response s2 t2 b2) (k2 : respOk s2 = true)
    (hd : decode b2 = Except.ok f) :
    (feedEndpoint decode fetchFn u1 u2 u3 em et sg).1.status = 200 ∧
    (feedEndpoint decode fetchFn u1 u2 u3 em et sg).1.body = Body.feed f ∧
    (feedEndpoint decode fetchFn u1 u2 u3 em et sg).2.map FetchCall.url = [u1, u2] := by
  unfold feedEndpoint resolveFeed
  rw [h1]
  simp [k1, h2, k2, hd, mkCall]

/-- Fetch oracle for fallback witnesses: the first trip-updates
candidate answers 503, every other URL succeeds with decodable bytes. -/
def fallbackFetch : String → FetchResult := fun u =>
  if u = tripUrl1 then FetchResult.response 503 "Service Unavailable" []
  else FetchResult.response 200 "OK" [10]

/-- Witness for httpError_falls_through_to_next_candidate: first
candidate 503, second candidate 200 with decodable bytes. -/
theorem httpError_falls_through_to_next_candidate_witness :
    (tripUpdatesHandler cexDecode fallbackFetch).1.status = 200 ∧
    (tripUpdatesHandler cexDecode fallbackFetch).1.body = Body.feed 7 ∧
    (tripUpdatesHandler cexDecode fallbackFetch).2.map FetchCall.url =
      [tripUrl1, tripUrl2] :=
  httpError_falls_through_to_next_candidate cexDecode fallbackFetch
    tripUrl1 tripUrl2 tripUrl3
    "All Madison Metro trip updates URLs failed. Status codes: "
    "Failed to retrieve data from Madison Metro API"
    (Option.some "Madison Metro may have changed their GTFS-Realtime feed URLs or implemented access controls")
    503 "Service Unavailable" [] 200 "OK" [10] 7 rfl rfl rfl rfl rfl

/-- Fetch oracle for the C2 counterexample: both reachable candidates
succeed at HTTP level; the first returns undecodable bytes, the second
decodable ones. -/
def cexFetchC2 : String → FetchResult := fun u =>
  if u = tripUrl1 then FetchResult.response 200 "OK" [0]
  else FetchResult.response 200 "OK" [1]

/-- Decoder oracle for the C2 counterexample: rejects the first
candidate's bytes, accepts the second candidate's bytes. -/
def cexDecodeC2 : List Nat → Except String Nat := fun b =>
  if b = [1] then Except.ok 42
  else Except.error "invalid wire type 7 at offset 1"

/-- C2 counterexample: the first candidate's fetch succeeds but its
bytes fail to decode, while the second candidate would succeed and
decode; the handler answers 404 after contacting only the first
candidate, refuting the claim that a decode failure is treated like a
fetch failure with resolution continuing to the next candidate. -/
theorem decodeFailure_does_not_continue :
    cexDecodeC2 [0] = Except.error "invalid wire type 7 at offset 1" ∧
    cexDecodeC2 [1] = Except.ok 42 ∧
    cexFetchC2 tripUrl2 = FetchResult.response 200 "OK" [1] ∧
    (tripUpdatesHandler cexDecodeC2 cexFetchC2).1.status = 404 ∧
    ((tripUpdatesHandler cexDecodeC2 cexFetchC2).2.map FetchCall.url) = [tripUrl1] :=
  ⟨rfl, rfl, rfl, rfl, rfl⟩

/-- C2 (amended): when a candidate's fetch succeeds (2xx) but decoding
its bytes fails, resolution ends immediately: the handler answers 404
carrying the decode error message and contacts no further candidate. -/
theorem decodeFailure_aborts_resolution {α : Type}
    (decode : List Nat → Except String α) (fetchFn : String → FetchResult)
    (u1 u2 u3 em et : String) (sg : Option String)
    (s1 : Nat) (t1 : String) (b1 : List Nat) (m : String)
    (h1 : fetchFn u1 = FetchResult.response s1 t1 b1) (k1 : respOk s1 = true)
    (hd : decode b1 = Except.error m) :
    (feedEndpoint decode fetchFn u1 u2 u3 em et sg).1.status = 404 ∧
    bodyDetails (feedEndpoint decode fetchFn u1 u2 u3 em et sg).1.body = m ∧
    (feedEndpoint decode fetchFn u1 u2 u3 em et sg).2.map FetchCall.url = [u1] := by
  unfold feedEndpoint resolveFeed
  rw [h1]
  simp [k1, hd, mkCall, bodyDetails]

/-- Witness for decodeFailure_aborts_resolution at the C2 oracles. -/
theorem decodeFailure_aborts_resolution_witness :
    (tripUpdatesHandler cexDecodeC2 cexFetchC2).1.status = 404 ∧
    bodyDetails (tripUpdatesHandler cexDecodeC2 cexFetchC2).1.body =
      "invalid wire type 7 at offset 1" ∧
    (tripUpdatesHandler cexDecodeC2 cexFetchC2).2.map FetchCall.url = [tripUrl1] :=
  decodeFailure_aborts_resolution cexDecodeC2 cexFetchC2
    tripUrl1 tripUrl2 tripUrl3
    "All Madison Metro trip updates URLs failed. Status codes: "
    "Failed to retrieve data from Madison Metro API"
    (Option.some "Madison Metro may have changed their GTFS-Realtime feed URLs or implemented access controls")
    200 "OK" [0] "invalid wire type 7 at offset 1" rfl rfl rfl

/-- C4: resolution contacts candidates strictly in list order — the
fetch trace is always an initial segment of the candidate list — and
returns at the first candidate whose fetch succeeds and whose bytes
decode: with candidates [A (HTTP failure), B (success), C (anything)],
exactly A and B are fetched and C never is, and a first-candidate
success fetches only A. -/
theorem candidates_tried_in_order_until_first_success {α : Type}
    (decode : List Nat → Except String α) (fetchFn : String → FetchResult)
    (u1 u2 u3 em et : String) (sg : Option String)
    (s1 : Nat) (t1 : String) (b1 : List Nat)
    (s2 : Nat) (t2 : String) (b2 : List Nat) (f : α)
    (h1 : fetchFn u1 = FetchResult.response s1 t1 b1) (k1 : respOk s1 = false)
    (h2 : fetchFn u2 = FetchResult.response s2 t2 b2) (k2 : respOk s2 = true)
    (hd : decode b2 = Except.ok f) :
    ((feedEndpoint decode fetchFn u1 u2 u3 em et sg).2.map FetchCall.url = [u1, u2] ∧
      (feedEndpoint decode fetchFn u1 u2 u3 em et sg).1.status = 200) ∧
    (∀ (decode2 : List Nat → Except String α) (fetchFn2 : String → FetchResult),
      ∃ k, (feedEndpoint decode2 fetchFn2 u1 u2 u3 em et sg).2.map FetchCall.url =
        ([u1, u2, u3]).take k) ∧
    (∀ (decode2 : List Nat → Except String α) (fetchFn2 : String → FetchResult)
        (s : Nat) (t : String) (b : List Nat) (g : α),
      fetchFn2 u1 = FetchResult.response s t b → respOk s = true →
      decode2 b = Except.ok g →
      (feedEndpoint decode2 fetchFn2 u1 u2 u3 em et sg).2.map FetchCall.url = [u1]) := by
  refine ⟨?_, ?_, ?_⟩
  · unfold feedEndpoint resolveFeed
    rw [h1]
    simp [k1, h2, k2, hd, mkCall]
  · intro decode2 fetchFn2
    rcases feedEndpoint_trace_cases decode2 fetchFn2 u1 u2 u3 em et sg with h | h | h
    · exact ⟨1, by rw [h]; simp [mkCall]⟩
    · exact ⟨2, by rw [h]; simp [mkCall]⟩
    · exact ⟨3, by rw [h]; simp [mkCall]⟩
  · intro decode2 fetchFn2 s t b g ha ka hg
    unfold feedEndpoint resolveFeed
    rw [ha]
    simp [ka, hg, mkCall]

/-- Witness for candidates_tried_in_order_until_first_success: first
candidate 503, second candidate 200 with decodable bytes; only the
first two trip-updates candidates are fetched and the response is 200. -/
theorem candidates_tried_in_order_until_first_success_witness :
    (tripUpdatesHandler cexDecode fallbackFetch).2.map FetchCall.url =
      [tripUrl1, tripUrl2] ∧
    (tripUpdatesHandler cexDecode fallbackFetch).1.status = 200 :=
  (candidates_tried_in_order_until_first_success cexDecode fallbackFetch
    tripUrl1 tripUrl2 tripUrl3
    "All Madison Metro trip updates URLs failed. Status codes: "
    "Failed to retrieve data from Madison Metro API"
    (Option.some "Madison Metro may have changed their GTFS-Realtime feed URLs or implemented access controls")
    503 "Service Unavailable" [] 200 "OK" [10] 7 rfl rfl rfl rfl rfl).1

/-- Fetch oracle for the C5 counterexample: first candidate answers
HTTP 404, every other URL fails at transport level. -/
def cexFetchC5 : String → FetchResult := fun u =>
  if u = tripUrl1 then FetchResult.response 404 "Not Found" []
  else FetchResult.thrown "connect ECONNREFUSED"

/-- C5 counterexample: every candidate fails (the first with HTTP 404,
the rest at transport level); the handler answers 404 after attempting
two candidates, yet the diagnostic details carry only the transport
error message of the second attempt — the first attempt's 404 outcome
is absent (the text does not even contain "404"), refuting the claim
that the payload lists exactly one outcome per attempted candidate. -/
theorem exhaustion_message_misses_earlier_outcome :
    cexFetchC5 tripUrl1 = FetchResult.response 404 "Not Found" [] ∧
    cexFetchC5 tripUrl2 = FetchResult.thrown "connect ECONNREFUSED" ∧
    (tripUpdatesHandler cexDecode cexFetchC5).1.status = 404 ∧
    ((tripUpdatesHandler cexDecode cexFetchC5).2.map FetchCall.url) =
      [tripUrl1, tripUrl2] ∧
    bodyDetails (tripUpdatesHandler cexDecode cexFetchC5).1.body =
      "connect ECONNREFUSED" ∧
    strIncludes "connect ECONNREFUSED" "404" = false :=
  ⟨rfl, rfl, rfl, rfl, rfl, rfl⟩

/-- C5 (amended): when every candidate fails at the HTTP level
(non-2xx responses), the handler answers HTTP 404 whose details message
lists exactly one status code per candidate, in candidate order, after
fetching all three candidates; a transport failure instead cuts the
pass short and the details carry only that error's message. -/
theorem all_http_failures_yield_404_listing_statuses {α : Type}
    (decode : List Nat → Except String α) (fetchFn : String → FetchResult)
    (u1 u2 u3 em et : String) (sg : Option String)
    (s1 : Nat) (t1 : String) (b1 : List Nat)
    (s2 : Nat) (t2 : String) (b2 : List Nat)
    (s3 : Nat) (t3 : String) (b3 : List Nat)
    (h1 : fetchFn u1 = FetchResult.response s1 t1 b1) (k1 : respOk s1 = false)
    (h2 : fetchFn u2 = FetchResult.response s2 t2 b2) (k2 : respOk s2 = false)
    (h3 : fetchFn u3 = FetchResult.response s3 t3 b3) (k3 : respOk s3 = false) :
    (feedEndpoint decode fetchFn u1 u2 u3 em et sg).1.status = 404 ∧
    bodyDetails (feedEndpoint decode fetchFn u1 u2 u3 em et sg).1.body =
      em ++ toString s1 ++ ", " ++ toString s2 ++ ", " ++ toString s3 ∧
    (feedEndpoint decode fetchFn u1 u2 u3 em et sg).2.map FetchCall.url =
      [u1, u2, u3] := by
  unfold feedEndpoint resolveFeed
  rw [h1]
  simp [k1, h2, k2, h3, k3, mkCall, bodyDetails]

/-- Fetch oracle for the C5 witness: the three trip-updates candidates
answer 404, 404 and 503. -/
def allHttpFailFetch : String → FetchResult := fun u =>
  if u = tripUrl3 then FetchResult.response 503 "Service Unavailable" []
  else FetchResult.response 404 "Not Found" []

/-- Witness for all_http_failures_yield_404_listing_statuses: statuses
404, 404, 503 produce the diagnostic listing exactly those statuses in
order. -/
theorem all_http_failures_yield_404_listing_statuses_witness :
    (tripUpdatesHandler cexDecode allHttpFailFetch).1.status = 404 ∧
    bodyDetails (tripUpdatesHandler cexDecode allHttpFailFetch).1.body =
      "All Madison Metro trip updates URLs failed. Status codes: 404, 404, 503" ∧
    (tripUpdatesHandler cexDecode allHttpFailFetch).2.map FetchCall.url =
      [tripUrl1, tripUrl2, tripUrl3] := by
  have h := all_http_failures_yield_404_listing_statuses cexDecode allHttpFailFetch
    tripUrl1 tripUrl2 tripUrl3
    "All Madison Metro trip updates URLs failed. Status codes: "
    "Failed to retrieve data from Madison Metro API"
    (Option.some "Madison Metro may have changed their GTFS-Realtime feed URLs or implemented access controls")
    404 "Not Found" [] 404 "Not Found" [] 503 "Service Unavailable" []
    rfl rfl rfl rfl rfl rfl
  exact ⟨h.1, h.2.1.trans (by decide), h.2.2⟩

/-- C7: a decode failure on bytes from a successful fetch never yields
HTTP 200 — when the first two candidates fail at HTTP level and the
final candidate's fetch succeeds but its bytes fail to decode, the
handler answers 404 and certainly not 200; and, in general, any 200
response carries a feed value coming from a successful decode. -/
theorem decode_failure_never_yields_200 {α : Type}
    (decode : List Nat → Except String α) (fetchFn : String → FetchResult)
    (u1 u2 u3 em et : String) (sg : Option String)
    (s1 : Nat) (t1 : String) (b1 : List Nat)
    (s2 : Nat) (t2 : String) (b2 : List Nat)
    (s3 : Nat) (t3 : String) (b3 : List Nat) (m : String)
    (h1 : fetchFn u1 = FetchResult.response s1 t1 b1) (k1 : respOk s1 = false)
    (h2 : fetchFn u2 = FetchResult.response s2 t2 b2) (k2 : respOk s2 = false)
    (h3 : fetchFn u3 = FetchResult.response s3 t3 b3) (k3 : respOk s3 = true)
    (hd : decode b3 = Except.error m) :
    (feedEndpoint decode fetchFn u1 u2 u3 em et sg).1.status = 404 ∧
    ¬ (feedEndpoint decode fetchFn u1 u2 u3 em et sg).1.status = 200 ∧
    (∀ (decode2 : List Nat → Except String α) (fetchFn2 : String → FetchResult),
      (feedEndpoint decode2 fetchFn2 u1 u2 u3 em et sg).1.status = 200 →
      ∃ b g, decode2 b = Except.ok g ∧
        (feedEndpoint decode2 fetchFn2 u1 u2 u3 em et sg).1.body = Body.feed g) := by
  have hs : (feedEndpoint decode fetchFn u1 u2 u3 em et sg).1.status = 404 := by
    unfold feedEndpoint resolveFeed
    rw [h1]
    simp [k1, h2, k2, h3, k3, hd]
  refine ⟨hs, by simp [hs], ?_⟩
  intro decode2 fetchFn2 h200
  unfold feedEndpoint resolveFeed at h200 ⊢
  rcases ha : fetchFn2 u1 with ⟨sa, ta, ba⟩ | ma
  · rcases ka : respOk sa
    · rcases hb : fetchFn2 u2 with ⟨sb, tb, bb⟩ | mb
      · rcases kb : respOk sb
        · rcases hc : fetchFn2 u3 with ⟨sc, tc, bc⟩ | mc
          · rcases kc : respOk sc
            · rw [ha] at h200
              simp [ka, hb, kb, hc, kc] at h200
            · rcases hdc : decode2 bc with mm | g
              · rw [ha] at h200
                simp [ka, hb, kb, hc, kc, hdc] at h200
              · refine ⟨bc, g, hdc, ?_⟩
                simp [ka, kb, kc, hdc]
          · rw [ha] at h200
            simp [ka, hb, kb, hc] at h200
        · rcases hdb : decode2 bb with mm | g
          · rw [ha] at h200
            simp [ka, hb, kb, hdb] at h200
          · refine ⟨bb, g, hdb, ?_⟩
            simp [ka, kb, hdb]
      · rw [ha] at h200
        simp [ka, hb] at h200
    · rcases hda : decode2 ba with mm | g
      · rw [ha] at h200
        simp [ka, hda] at h200
      · refine ⟨ba, g, hda, ?_⟩
        simp [ka, hda]
  · rw [ha] at h200
    simp at h200

/-- Fetch oracle for the C7 witness: the first two trip-updates
candidates answer 404 and the third answers 200 with undecodable
bytes. -/
def cexFetchC7 : String → FetchResult := fun u =>
  if u = tripUrl3 then FetchResult.response 200 "OK" [0]
  else FetchResult.response 404 "Not Found" []

/-- Witness for decode_failure_never_yields_200: the final candidate
fetch succeeds with bytes the decoder rejects; the response is 404. -/
theorem decode_failure_never_yields_200_witness :
    (tripUpdatesHandler cexDecodeC2 cexFetchC7).1.status = 404 ∧
    ¬ (tripUpdatesHandler cexDecodeC2 cexFetchC7).1.status = 200 := by
  have h := decode_failure_never_yields_200 cexDecodeC2 cexFetchC7
    tripUrl1 tripUrl2 tripUrl3
    "All Madison Metro trip updates URLs failed. Status codes: "
    "Failed to retrieve data from Madison Metro API"
    (Option.some "Madison Metro may have changed their GTFS-Realtime feed URLs or implemented access controls")
    404 "Not Found" [] 404 "Not Found" [] 200 "OK" [0]
    "invalid wire type 7 at offset 1"
    rfl rfl rfl rfl rfl rfl rfl
  exact ⟨h.1, h.2.1⟩

/-- The working flag recorded by a probe is exactly the 2xx test on the
fetch result. -/
theorem probe_working_eq (fetchFn : String → FetchResult) (u : String) :
    (probe fetchFn u).working = fetchWorking (fetchFn u) := by
  cases h : fetchFn u <;> simp [probe, fetchWorking, h]

/-- JS first-element-or-default on a list of non-empty strings is the
head of the list, or the default on an empty list. -/
theorem jsOrNoneFound_head (l : List String) (h : ∀ u ∈ l, ¬ u = "") :
    jsOrNoneFound l.head? = l.headD "None found" := by
  cases l with
  | nil => rfl
  | cons a t => simp [jsOrNoneFound, h a (List.mem_cons_self a t)]

/-- The code's recommended-endpoint computation over a feed's candidate
list agrees with the spec-side description, provided the candidates are
non-empty strings. -/
theorem specFirstWorking_eq (fetchFn : String → FetchResult) (l : List String)
    (h : ∀ u ∈ l, ¬ u = "") :
    jsOrNoneFound (l.filter (fun u => (probe fetchFn u).working)).head? =
      specFirstWorking fetchFn l := by
  unfold specFirstWorking
  exact jsOrNoneFound_head _ (fun u hu => h u (List.mem_of_mem_filter hu))

/-- Mapping a function into pairs and projecting the first components
back recovers the original list. -/
theorem map_fst_pair {β : Type} (g : String → β) (l : List String) :
    (l.map (fun u => (u, g u))).map Prod.fst = l := by
  induction l with
  | nil => rfl
  | cons a t ih => simp [ih]

/-- Projecting the working flags out of the probe-result pairs gives
the pointwise 2xx test of the fetch oracle. -/
theorem map_working_pair (fetchFn : String → FetchResult) (l : List String) :
    (l.map (fun u => (u, probe fetchFn u))).map (fun p => p.2.working) =
      l.map (fun u => fetchWorking (fetchFn u)) := by
  induction l with
  | nil => rfl
  | cons a t ih => simp [ih, probe_working_eq]

/-- The working-URLs computation of the discovery handler equals a
filter of the probe list by pattern followed by a filter by working
flag. -/
theorem filterWorking_eq (fetchFn : String → FetchResult) (pat : String) :
    filterWorking (discResults fetchFn) pat =
      (urlPatterns.filter (fun u => strIncludes (toLowerStr u) pat)).filter
        (fun u => (probe fetchFn u).working) := by
  unfold filterWorking discResults
  rw [List.filter_map, List.filter_filter]
  exact map_fst_pair (probe fetchFn) _

/-- C6: the discovery report has one status entry per configured URL in
probe order; each entry's working flag is true exactly when that URL's
fetch returned a 2xx response (respOk meaning 200 ≤ s < 300); and each
per-feed recommended endpoint equals the first URL of that feed's
candidate list whose probe is working, or the literal "None found" when
none is. -/
theorem discovery_reports_all_urls_and_first_working
    (fetchFn : String → FetchResult) :
    ((discoverUrls fetchFn).1.urlChecks.map Prod.fst = urlPatterns) ∧
    ((discoverUrls fetchFn).1.urlChecks.map (fun p => p.2.working) =
      urlPatterns.map (fun u => fetchWorking (fetchFn u))) ∧
    (∀ s : Nat, respOk s = true ↔ (200 ≤ s ∧ s < 300)) ∧
    ((discoverUrls fetchFn).1.recommendedTripUpdates =
      specFirstWorking fetchFn tripUrls) ∧
    ((discoverUrls fetchFn).1.recommendedVehiclePositions =
      specFirstWorking fetchFn vehicleUrls) ∧
    ((discoverUrls fetchFn).1.recommendedAlerts =
      specFirstWorking fetchFn alertUrls) := by
  refine ⟨?_, ?_, ?_, ?_, ?_, ?_⟩
  · exact map_fst_pair (probe fetchFn) urlPatterns
  · exact map_working_pair fetchFn urlPatterns
  · intro s
    simp [respOk]
  · show jsOrNoneFound (filterWorking (discResults fetchFn) "tripupdate").head? = _
    have hf : urlPatterns.filter (fun u => strIncludes (toLowerStr u) "tripupdate") =
        tripUrls := by decide
    rw [filterWorking_eq, hf]
    exact specFirstWorking_eq fetchFn tripUrls (by decide)
  · show jsOrNoneFound (filterWorking (discResults fetchFn) "vehicleposition").head? = _
    have hf : urlPatterns.filter (fun u => strIncludes (toLowerStr u) "vehicleposition") =
        vehicleUrls := by decide
    rw [filterWorking_eq, hf]
    exact specFirstWorking_eq fetchFn vehicleUrls (by decide)
  · show jsOrNoneFound (filterWorking (discResults fetchFn) "alert").head? = _
    have hf : urlPatterns.filter (fun u => strIncludes (toLowerStr u) "alert") =
        alertUrls := by decide
    rw [filterWorking_eq, hf]
    exact specFirstWorking_eq fetchFn alertUrls (by decide)

end MadisonProxy
